import Mathlib

/-!
Verification development for the coldb column-store server.

The definitions below are a shallow embedding of the C sources:
  * `src/db_batch_queue.c` — the batch queue (`create_node`,
    `create_batch_queue`, `add_batch_queue`, `is_bq_empty`, and the
    traversal performed by `show_batch_query`);
  * `src/parse.c`       — the command compiler (`parse_command` and the
    per-keyword parsers);
  * `src/server.c`      — the operator dispatcher (`execute_DbOperator`)
    and the per-command step of `handle_client`;
  * `src/utils_func.c`  — the string helpers (`trim_whitespace`,
    `trim_quote`).

Heap-allocated linked-list nodes are modelled by allocation indices into a
growing list of cells (a node's "address" is the position at which it was
allocated); C strings are modelled as `List Char` (and `String` for the
payload fields of finished operators); fallible pointer dereferences and
out-of-bounds indexing are modelled with `Option`.
-/

/-- Payload of a select operator, per `select_operator` usage in
`db_batch_queue.c` (`select_col`, `pre_range`, `post_range`, `handle`, all
C strings, printed with `%s`).  `pre_range` is the spec's `range_low`,
`post_range` its `range_high`. -/
structure SelectOperator where
  select_col : String
  pre_range : String
  post_range : String
  handle : String
deriving DecidableEq, Repr

instance : Inhabited SelectOperator := ⟨⟨"", "", "", ""⟩⟩

/-- A batch-queue node (`bqNode` in `db_batch_queue.c`): the wrapped query,
the independently owned copy of the handle made by `create_node`, and the
link to the next node, modelled as an allocation index. -/
structure bqNode where
  query : SelectOperator
  share_query_handle : String
  next : Option Nat
deriving DecidableEq, Repr

/-- The sentinel cell allocated by `create_batch_queue`: its payload is
never read by the code, so default values stand in for the uninitialized
malloc'd memory. -/
def sentinelNode : bqNode := ⟨default, "", none⟩

/-- The batch queue (`batchQueue` in `db_batch_queue.c`): head and tail
pointers and a length counter.  The `heap` field models the set of
allocated nodes, a cell's index standing for its address. -/
structure batchQueue where
  heap : List bqNode
  head : Nat
  tail : Nat
  length : Nat
deriving DecidableEq, Repr

/-- `create_node` (`db_batch_queue.c:15`): wraps a select query into a
node with `next = NULL` and a fresh copy of the query's handle. -/
def create_node (query : SelectOperator) : bqNode :=
  ⟨query, query.handle, none⟩

/-- `create_batch_queue` (`db_batch_queue.c:28`): one sentinel cell,
head and tail both pointing at it, length 0. -/
def create_batch_queue : batchQueue :=
  ⟨[sentinelNode], 0, 0, 0⟩

/-- In-place update of the `next` field of the cell at a given address,
modelling `bq->tail->next = node`. -/
def setNext : List bqNode → Nat → Option Nat → List bqNode
  | [], _, _ => []
  | c :: cs, 0, nxt => { c with next := nxt } :: cs
  | c :: cs, i + 1, nxt => c :: setNext cs i nxt

/-- `add_batch_queue` (`db_batch_queue.c:47`): links the new node after the
current tail, makes it the new tail, and bumps the length.  (The C routine
mutates the global `bq` and returns a status; the model returns the updated
queue.  Despite the comment above the C routine promising ordering by
select range, the body is a plain tail append.) -/
def add_batch_queue (bq : batchQueue) (node : bqNode) : batchQueue :=
  let nodeId := bq.heap.length
  { heap := setNext bq.heap bq.tail (some nodeId) ++ [node]
    head := bq.head
    tail := nodeId
    length := bq.length + 1 }

/-- `is_bq_empty` (`db_batch_queue.c:71`).  The argument is the global
`bq`, possibly NULL.  The function returns the int 0 when the queue is
absent or `head == tail`, and 1 otherwise; its caller `show_batch_query`
tests `is_bq_empty() == 0` as "nothing to traverse", so 0 is the code's
report of emptiness. -/
def is_bq_empty : Option batchQueue → Nat
  | none => 0
  | some bq => if bq.head = bq.tail then 0 else 1

/-- Pointer chase along `next` links starting from an optional address,
with fuel to keep the model total (every reachable state is acyclic, so
`heap.length` fuel is always enough).  Returns the addresses visited, in
order — the traversal order of `show_batch_query`'s `while` loop. -/
def chaseIds (heap : List bqNode) : Nat → Option Nat → List Nat
  | _, none => []
  | 0, some _ => []
  | fuel + 1, some i =>
    match heap.get? i with
    | none => []
    | some c => i :: chaseIds heap fuel c.next

/-- Addresses of the real nodes of the queue, in traversal order: the
chain starting at `head->next`, exactly as walked by `show_batch_query`
(`db_batch_queue.c:58`) and as a drain would hand nodes over. -/
def realNodeIds (bq : batchQueue) : List Nat :=
  match bq.heap.get? bq.head with
  | none => []
  | some h => chaseIds bq.heap bq.heap.length h.next

/-- The real nodes themselves, in traversal/drain order. -/
def drainNodes (bq : batchQueue) : List bqNode :=
  (realNodeIds bq).filterMap fun i => bq.heap.get? i

/-- Projection of a drained node to the fields the spec's round-trip
property talks about: `range_low` (`pre_range`), `range_high`
(`post_range`) and the result handle (the node's own copy). -/
def drainSelects (bq : batchQueue) : List (String × String × String) :=
  (drainNodes bq).map fun c => (c.query.pre_range, c.query.post_range, c.share_query_handle)

/-- The queue obtained by creating a fresh queue and enqueuing one node
per listed select query, in order (each wrapped by `create_node`, as the
dispatcher would). -/
def enqueueAll (ps : List SelectOperator) : batchQueue :=
  ps.foldl (fun q p => add_batch_queue q (create_node p)) create_batch_queue

/-! ### Closed form of the queue after a sequence of enqueues

Allocation indices are deterministic: the sentinel is cell 0 and the
`j`-th enqueued node becomes cell `j + 1`, so the queue built by
`enqueueAll` has an explicit description, proved in `enqueueAll_eq`. -/

/-- The cell holding the `j`-th enqueued query (allocated at address
`j + 1`): it links to the next allocation, the last one to `NULL`. -/
def heapCell (ps : List SelectOperator) (j : Nat) : bqNode :=
  { query := ps.getD j default
    share_query_handle := (ps.getD j default).handle
    next := if j + 1 = ps.length then none else some (j + 2) }

/-- Closed form of the heap after enqueuing `ps` in order. -/
def heapModel (ps : List SelectOperator) : List bqNode :=
  { sentinelNode with next := if ps.length = 0 then none else some 1 } ::
    (List.range ps.length).map (heapCell ps)

/-- Closed form of the whole queue state after enqueuing `ps` in order. -/
def queueModel (ps : List SelectOperator) : batchQueue :=
  ⟨heapModel ps, 0, ps.length, ps.length⟩

/-! ### The command compiler (`parse.c`) and string helpers (`utils_func.c`)

C strings are `List Char`; the payload fields of finished operators are
packed into `String` with `List.asString`.  Out-of-bounds indexing and
undefined behavior are made explicit via `Option` / a dedicated
`ParseResult.undef` outcome. -/

/-- C `isspace` in the default locale: space, tab, newline, vertical tab,
form feed, carriage return. -/
def isspace (c : Char) : Bool :=
  c = ' ' || c = '\t' || c = '\n' || c = '\x0b' || c = '\x0c' || c = '\r'

/-- `trim_whitespace` (`utils_func.c:53`): the C loop copies every
non-whitespace character forward, so every whitespace character of the
string is removed, wherever it occurs. -/
def trim_whitespace : List Char → List Char
  | [] => []
  | c :: cs => if isspace c then trim_whitespace cs else c :: trim_whitespace cs

/-- `trim_quote` (`utils_func.c:89`): deletes every `"` character.
(`parse.c` calls this helper under the name `trim_quotes`.) -/
def trim_quote : List Char → List Char
  | [] => []
  | c :: cs => if c = '"' then trim_quote cs else c :: trim_quote cs

/-- One `strsep`/`strchr` step: splits a string at the first occurrence of
`ch`, returning the part before it and the part after it, or `none` when
`ch` does not occur. -/
def splitAtFirst (ch : Char) : List Char → Option (List Char × List Char)
  | [] => none
  | c :: cs =>
    if c = ch then some ([], cs)
    else (splitAtFirst ch cs).map fun p => (c :: p.1, p.2)

/-- C string indexing with an `int` index, as in `token[strlen(token)-1]`:
a negative index is an out-of-bounds access, modelled as `none`. -/
def charAtInt (l : List Char) (i : Int) : Option Char :=
  if i < 0 then none else l.get? i.toNat

/-- Digit-accumulation loop of `atoi`: consumes leading digits, stops at
the first non-digit. -/
def atoiDigits : List Char → Int → Int
  | [], acc => acc
  | c :: cs, acc =>
    if c.isDigit then atoiDigits cs (acc * 10 + ((c.toNat : Int) - 48)) else acc

/-- C `atoi`: skips leading whitespace, reads an optional sign and then a
maximal digit prefix; any other string yields 0.  (Overflow of the C `int`
is not modelled; the inputs of interest are small.) -/
def atoi (l : List Char) : Int :=
  let l1 := l.dropWhile fun c => isspace c
  match l1 with
  | '-' :: rest => - atoiDigits rest 0
  | '+' :: rest => atoiDigits rest 0
  | _ => atoiDigits l1 0

/-- Conversion of a C `int` value to `size_t`, as in
`size_t column_cnt = atoi(col_cnt)`: reduction modulo `2^64`, so a
negative value becomes a huge unsigned one. -/
def sizeT (i : Int) : Nat := (i % (2 ^ 64 : Int)).toNat

/-- A compiled operator (`DbOperator` of `parse.h`, tagged union): one
constructor per `OperatorType` produced by `parse.c`.  The
`client_fd`/`context` routing fields are omitted; no claim concerns them. -/
inductive DbOperator where
  | error_cmd (err_info : String)
  | create_db (db_name : String)
  | create_tbl (db_name tbl_name : String) (col_count : Nat)
  | create_col (tbl_name col_name : String)
  | load (data_path : String)
  | shutdown
deriving DecidableEq, Repr

/-- Outcome of `parse_command`: a (non-NULL) operator pointer, the NULL
pointer (returned for comment lines), or undefined behavior (an
out-of-bounds read inside a keyword parser, or the `relational_insert`
branch, whose `parse_insert` body is entirely commented out and falls off
the end of a non-void function). -/
inductive ParseResult where
  | op (dbo : DbOperator)
  | null
  | undef
deriving DecidableEq, Repr

/-- The diagnostic produced for an unrecognized command prefix
(`parse.c:251`) — also the literal returned by `execute_DbOperator` for
`ERROR_CMD` (`server.c:46`). -/
def err_command_msg : String := "error command, please try again.\n"

def create_db_usage : String :=
  "create database command is error, use command like [create(db,\"name\")]"

def create_tbl_usage : String :=
  "create table command is error, use command like [create(tbl,\"grades\",name,2)]"

def create_col_usage : String :=
  "create column command is error, use command like [create(col,\"col_name\",full_tbl_name)]"

def load_usage : String :=
  "load data command is error, use command like [load(\"data_path\")]"

/-- `parse_create_db` (`parse.c:112`): strips quotes, requires a final
`')'` (with an explicit `last_char < 0` guard), strips it. -/
def parse_create_db (query_command : List Char) : ParseResult :=
  let db_name := trim_quote query_command
  let last_char : Int := (db_name.length : Int) - 1
  if last_char < 0 then .op (.error_cmd create_db_usage)
  else
    match charAtInt db_name last_char with
    | none => .undef
    | some c =>
      if c ≠ ')' then .op (.error_cmd create_db_usage)
      else .op (.create_db db_name.dropLast.asString)

/-- `parse_load` (`parse.c:129`): same shape as `parse_create_db`. -/
def parse_load (query_command : List Char) : ParseResult :=
  let data_path := trim_quote query_command
  let last_char : Int := (data_path.length : Int) - 1
  if last_char < 0 then .op (.error_cmd load_usage)
  else
    match charAtInt data_path last_char with
    | none => .undef
    | some c =>
      if c ≠ ')' then .op (.error_cmd load_usage)
      else .op (.load data_path.dropLast.asString)

/-- `parse_create_tbl` (`parse.c:72`): three `strsep` tokens
(`tbl_name`, `db_name`, `col_cnt`); a missing comma is a format error;
the closing-parenthesis check reads `col_cnt[strlen(col_cnt)-1]` with no
`last_char < 0` guard, so an empty final token is an out-of-bounds read
(`.undef`); the column count goes through `atoi` and is stored into a
`size_t` before the `< 1` comparison. -/
def parse_create_tbl (query_command : List Char) : ParseResult :=
  match splitAtFirst ',' query_command with
  | none => .op (.error_cmd create_tbl_usage)
  | some (tbl_tok, r1) =>
    match splitAtFirst ',' r1 with
    | none => .op (.error_cmd create_tbl_usage)
    | some (db_name, r2) =>
      let col_cnt := match splitAtFirst ',' r2 with
        | some (t, _) => t
        | none => r2
      let tbl_name := trim_quote tbl_tok
      let last_char : Int := (col_cnt.length : Int) - 1
      match charAtInt col_cnt last_char with
      | none => .undef
      | some c =>
        if c ≠ ')' then .op (.error_cmd create_tbl_usage)
        else
          let column_cnt : Nat := sizeT (atoi col_cnt.dropLast)
          if column_cnt < 1 then
            .op (.error_cmd "query unsupported, wrong column number")
          else
            .op (.create_tbl db_name.asString
              (db_name ++ '.' :: tbl_name).asString column_cnt)

/-- `parse_create_col` (`parse.c:42`): two `strsep` tokens (`col_name`,
`full_tbl_name`); like `parse_create_tbl`, the `')'` check on the second
token has no `last_char < 0` guard. -/
def parse_create_col (query_command : List Char) : ParseResult :=
  match splitAtFirst ',' query_command with
  | none => .op (.error_cmd create_col_usage)
  | some (col_tok, r1) =>
    let col_name := trim_quote col_tok
    let full_tbl_name := match splitAtFirst ',' r1 with
      | some (t, _) => t
      | none => r1
    let last_char : Int := (full_tbl_name.length : Int) - 1
    match charAtInt full_tbl_name last_char with
    | none => .undef
    | some c =>
      if c ≠ ')' then .op (.error_cmd create_col_usage)
      else
        let tbl := full_tbl_name.dropLast
        .op (.create_col tbl.asString (tbl ++ '.' :: col_name).asString)

/-- `strncmp(s, lit, strlen(lit)) == 0`: literal prefix test. -/
def startsWithL : List Char → List Char → Bool
  | [], _ => true
  | _ :: _, [] => false
  | p :: ps, c :: cs => p = c && startsWithL ps cs

/-- The handle-stripping step of `parse_command` (`parse.c:211`): if the
command contains `=`, everything after the first `=` is the query; the
part before it is kept as the result handle (only logged for the commands
modelled here). -/
def afterEq (raw : List Char) : List Char :=
  match splitAtFirst '=' raw with
  | some (_, post) => post
  | none => raw

/-- Keyword dispatch of `parse_command` (`parse.c:225`), applied to the
whitespace-stripped query: literal prefix match against the fixed keyword
set, each handler receiving the remainder after its keyword.  The
`relational_insert` branch calls `parse_insert`, whose body is commented
out (it falls off the end without returning), hence `.undef`. -/
def keyword_dispatch (query_command : List Char) : ParseResult :=
  if startsWithL "create(db,".data query_command then
    parse_create_db (query_command.drop 10)
  else if startsWithL "create(tbl,".data query_command then
    parse_create_tbl (query_command.drop 11)
  else if startsWithL "create(col,".data query_command then
    parse_create_col (query_command.drop 11)
  else if startsWithL "load(".data query_command then
    parse_load (query_command.drop 5)
  else if startsWithL "relational_insert".data query_command then
    .undef
  else if startsWithL "shutdown".data query_command then
    .op .shutdown
  else
    .op (.error_cmd err_command_msg)

/-- `parse_command` (`parse.c:202`): a line starting with `--` is a
comment and compiles to the NULL operator; otherwise the handle (if any)
is split off at the first `=`, the remaining command is passed through
`trim_whitespace`, and keyword dispatch runs on the result. -/
def parse_command (raw : List Char) : ParseResult :=
  if startsWithL "--".data raw then .null
  else keyword_dispatch (trim_whitespace (afterEq raw))

/-! ### The operator dispatcher (`server.c`)

The catalog store, bulk loader and persistence routines are external
collaborators (`db_manager.h`); only their success/failure outcome is
visible to `execute_DbOperator`, so the dispatcher is modelled as a
function of an environment fixing those outcomes, and it additionally
returns the trace of collaborator calls it makes, in order. -/

/-- Outcomes of the external collaborator calls made by
`execute_DbOperator` (success of `create_db`, `create_table`,
`create_column`, `load_data_csv`, `persist_data_csv`). -/
structure ExtEnv where
  create_db_ok : Bool
  create_tbl_ok : Bool
  create_col_ok : Bool
  load_ok : Bool
  persist_ok : Bool
deriving DecidableEq, Repr

/-- One external call (or error-log write) performed by the dispatcher. -/
inductive Event where
  | call_create_db (db_name : String)
  | call_create_table (db_name tbl_name : String) (col_count : Nat)
  | call_create_column (tbl_name col_name : String)
  | call_load_csv (data_path : String)
  | call_persist_csv
  | log_error (msg : String)
  | call_free_db_store
  | call_free_tbl_store
  | call_free_col_store
deriving DecidableEq, Repr

/-- `execute_DbOperator` (`server.c:43`) on a non-NULL operator: the
response string sent to the client, paired with the trace of collaborator
calls.  Note that for `ERROR_CMD` the code returns the fixed literal
`"error command, please try again.\n"`, and for `SHUTDOWN` it calls
`persist_data_csv` first, logs on failure, then tears the three catalog
stores down and returns the success string unconditionally. -/
def execute_DbOperator (ext : ExtEnv) : DbOperator → String × List Event
  | .error_cmd _ => (err_command_msg, [])
  | .create_db db_name =>
    (if ext.create_db_ok then "create database successfully.\n"
     else "create database failed.\n", [.call_create_db db_name])
  | .create_tbl db_name tbl_name col_count =>
    (if ext.create_tbl_ok then "create table successfully.\n"
     else "create table failed.\n", [.call_create_table db_name tbl_name col_count])
  | .create_col tbl_name col_name =>
    (if ext.create_col_ok then "create column successfully.\n"
     else "create column failed.\n", [.call_create_column tbl_name col_name])
  | .load data_path =>
    (if ext.load_ok then "load data into database successfully.\n"
     else "load data into database failed.\n", [.call_load_csv data_path])
  | .shutdown =>
    ("persist all the data and shutdown the server.\n",
      .call_persist_csv ::
        (if ext.persist_ok then []
         else [.log_error "persist all the data failed.\n"]) ++
        [.call_free_db_store, .call_free_tbl_store, .call_free_col_store])

/-- `execute_DbOperator` as called from `handle_client` (`server.c:154`)
with a possibly-NULL operator pointer: the function begins with
`query->type`, with no NULL check, so on the NULL pointer there is no
defined result (`none`). -/
def execute_DbOperator_opt (ext : ExtEnv) : Option DbOperator → Option (String × List Event)
  | none => none
  | some query => some (execute_DbOperator ext query)

/-- The operator pointer handed from `parse_command` to
`execute_DbOperator`: NULL for a comment line; an already-undefined parse
has no defined operator either. -/
def operatorOfResult : ParseResult → Option DbOperator
  | .op dbo => some dbo
  | .null => none
  | .undef => none

/-- One iteration of `handle_client`'s receive loop (`server.c:150`):
compile the received line, dispatch the resulting operator, and produce
the response to send — `none` when no defined response exists. -/
def handle_client_step (ext : ExtEnv) (raw : List Char) : Option String :=
  (execute_DbOperator_opt ext (operatorOfResult (parse_command raw))).map Prod.fst

/-- Modelled from the spec: the spec's description of the compiler's
whitespace handling — "Leading/trailing whitespace is stripped before
keyword matching" — i.e. removal of only the leading and the trailing
whitespace run, interior characters left in place.  This definition
follows the spec's words (no source function implements it) and exists
solely for comparison against the source's `trim_whitespace`. -/
def stripLeadTrailSpec (l : List Char) : List Char :=
  ((l.dropWhile fun c => isspace c).reverse.dropWhile fun c => isspace c).reverse

/-! ### Properties of the batch-queue model -/

theorem setNext_length (l : List bqNode) (i : Nat) (v : Option Nat) :
    (setNext l i v).length = l.length := by
  induction l generalizing i with
  | nil => rfl
  | cons c cs ih =>
    cases i with
    | zero => rfl
    | succ i => simp [setNext, ih]

theorem setNext_get? (l : List bqNode) (i : Nat) (v : Option Nat) (k : Nat) :
    (setNext l i v).get? k =
      if k = i then (l.get? i).map (fun c => { c with next := v }) else l.get? k := by
  induction l generalizing i k with
  | nil => cases k <;> cases i <;> simp [setNext]
  | cons c cs ih =>
    cases i with
    | zero => cases k with
      | zero => simp [setNext]
      | succ k => simp [setNext]
    | succ i =>
      cases k with
      | zero => simp [setNext]
      | succ k => simpa [setNext] using ih i k

theorem heapModel_length (ps : List SelectOperator) :
    (heapModel ps).length = ps.length + 1 := by
  simp [heapModel]

theorem heapModel_get?_zero (ps : List SelectOperator) :
    (heapModel ps).get? 0 =
      some { sentinelNode with next := if ps.length = 0 then none else some 1 } := rfl

theorem heapModel_get?_succ (ps : List SelectOperator) (j : Nat) :
    (heapModel ps).get? (j + 1) =
      if j < ps.length then some (heapCell ps j) else none := by
  by_cases h : j < ps.length
  · simp [heapModel, h, List.get?_map, List.get?_range]
  · simp [heapModel, h, List.get?_eq_none.2, List.length_range, Nat.le_of_not_lt h]

theorem getD_concat (ps : List SelectOperator) (p : SelectOperator) :
    (ps ++ [p]).getD ps.length default = p := by
  simp [List.getD_eq_getElem?_getD, List.getElem?_concat_length]

theorem add_model (ps : List SelectOperator) (p : SelectOperator) :
    add_batch_queue (queueModel ps) (create_node p) = queueModel (ps ++ [p]) := by
  have hheap : setNext (heapModel ps) ps.length (some ((heapModel ps).length)) ++ [create_node p]
      = heapModel (ps ++ [p]) := by
    apply List.ext_get?
    intro k
    have hsl : (setNext (heapModel ps) ps.length (some ((heapModel ps).length))).length
        = ps.length + 1 := by rw [setNext_length, heapModel_length]
    rcases k with _ | j
    · rw [List.get?_append (by omega), setNext_get?, heapModel_length]
      by_cases h0 : ps.length = 0
      · simp [h0, heapModel_get?_zero, heapModel, sentinelNode]
      · simp [h0, heapModel_get?_zero, heapModel, sentinelNode,
          show ¬(0 = ps.length) from fun h => h0 h.symm,
          show ¬(ps.length + 1 = 0) from by omega]
    · by_cases hj : j < ps.length
      · rw [List.get?_append (by omega), setNext_get?, heapModel_length]
        by_cases hje : j + 1 = ps.length
        · rw [if_pos hje, ← hje]
          rw [show (heapModel ps).get? (j + 1) = some (heapCell ps j) from by
            rw [heapModel_get?_succ]; simp [hj]]
          rw [show (heapModel (ps ++ [p])).get? (j + 1) = some (heapCell (ps ++ [p]) j) from by
            rw [heapModel_get?_succ]; simp [List.length_append]; omega]
          simp [heapCell, List.getElem?_append_left hj, List.length_append,
            show ¬(j + 1 = ps.length + 1) from by omega]
        · rw [if_neg hje]
          rw [show (heapModel ps).get? (j + 1) = some (heapCell ps j) from by
            rw [heapModel_get?_succ]; simp [hj]]
          rw [show (heapModel (ps ++ [p])).get? (j + 1) = some (heapCell (ps ++ [p]) j) from by
            rw [heapModel_get?_succ]; simp [List.length_append]; omega]
          simp [heapCell, List.getElem?_append_left hj, List.length_append, hje,
            show ¬(j + 1 = ps.length + 1) from by omega]
      · by_cases hje : j = ps.length
        · rw [List.get?_append_right (by omega), hsl]
          rw [show (heapModel (ps ++ [p])).get? (j + 1) = some (heapCell (ps ++ [p]) j) from by
            rw [heapModel_get?_succ]; simp [List.length_append]; omega]
          subst hje
          simp [heapCell, getD_concat, List.length_append, create_node]
        · rw [List.get?_append_right (by omega), hsl]
          rw [show (j + 1) - (ps.length + 1) = j - ps.length from by omega]
          rw [show ([create_node p].get? (j - ps.length)) = none from by
            rw [List.get?_eq_none]; simp; omega]
          rw [heapModel_get?_succ]
          simp [List.length_append, show ¬(j < ps.length + 1) from by omega]
  simp only [add_batch_queue, queueModel, batchQueue.mk.injEq]
  refine ⟨hheap, ?_, ?_, ?_⟩ <;> simp [heapModel_length, List.length_append]

theorem enqueueAll_eq (ps : List SelectOperator) : enqueueAll ps = queueModel ps := by
  induction ps using List.reverseRecOn with
  | nil => rfl
  | append_singleton ps p ih =>
    have : enqueueAll (ps ++ [p]) = add_batch_queue (enqueueAll ps) (create_node p) := by
      simp [enqueueAll, List.foldl_append]
    rw [this, ih, add_model]

theorem chase_heapModel (ps : List SelectOperator) :
    ∀ (fuel j : Nat), j < ps.length → ps.length - j ≤ fuel →
      chaseIds (heapModel ps) fuel (some (j + 1)) = List.range' (j + 1) (ps.length - j) := by
  intro fuel
  induction fuel with
  | zero => intro j hj hf; omega
  | succ fuel ih =>
    intro j hj hf
    have hget : (heapModel ps).get? (j + 1) = some (heapCell ps j) := by
      rw [heapModel_get?_succ]; simp [hj]
    rw [chaseIds, hget]
    simp only [heapCell]
    by_cases hje : j + 1 = ps.length
    · simp only [if_pos hje, chaseIds]
      rw [show ps.length - j = 1 from by omega, List.range'_one]
    · simp only [if_neg hje]
      have h1 : j + 1 < ps.length := by omega
      have := ih (j + 1) h1 (by omega)
      rw [show j + 1 + 1 = (j + 1) + 1 from rfl, this]
      rw [show ps.length - j = (ps.length - (j + 1)) + 1 from by omega, List.range'_succ]

theorem realNodeIds_model (ps : List SelectOperator) :
    realNodeIds (queueModel ps) = List.range' 1 ps.length := by
  unfold realNodeIds
  simp only [queueModel]
  rw [heapModel_get?_zero]
  by_cases h0 : ps.length = 0
  · simp [h0, chaseIds]
  · simp only [if_neg h0, heapModel_length]
    have := chase_heapModel ps (ps.length + 1) 0 (by omega) (by omega)
    simpa using this

theorem filterMap_all_some {α β : Type} (g : α → Option β) (f : α → β) :
    ∀ l : List α, (∀ a ∈ l, g a = some (f a)) → l.filterMap g = l.map f := by
  intro l h
  induction l with
  | nil => rfl
  | cons a l ih =>
    rw [List.filterMap_cons, h a (by simp), List.map_cons, ih (fun b hb => h b (by simp [hb]))]

theorem drainNodes_model (ps : List SelectOperator) :
    drainNodes (queueModel ps) = (List.range' 1 ps.length).map (fun i => heapCell ps (i - 1)) := by
  rw [drainNodes, realNodeIds_model]
  apply filterMap_all_some
  intro i hi
  rw [List.mem_range'] at hi
  obtain ⟨k, hk, rfl⟩ := hi
  have h1 : 1 + 1 * k = k + 1 := by omega
  rw [h1]
  show (heapModel ps).get? (k + 1) = some (heapCell ps (k + 1 - 1))
  rw [heapModel_get?_succ]
  simp [show k < ps.length from by omega]

theorem drainSelects_enqueueAll (ps : List SelectOperator) :
    drainSelects (enqueueAll ps) = ps.map (fun p => (p.pre_range, p.post_range, p.handle)) := by
  rw [drainSelects, enqueueAll_eq, drainNodes_model]
  apply List.ext_get
  · simp
  · intro n h1 h2
    have hn : n < ps.length := by simpa using h2
    simp only [List.get_eq_getElem, List.getElem_map, List.getElem_range']
    have he : 1 + 1 * n - 1 = n := by omega
    rw [he]
    simp [heapCell, List.getElem?_eq_getElem hn]

/-! ### The claims -/

/-- The C loop of `trim_whitespace` keeps exactly the non-whitespace
characters, in order: it is the whitespace filter, wherever the
whitespace occurs in the string. -/
theorem trim_whitespace_eq_filter (l : List Char) :
    trim_whitespace l = l.filter fun a => !isspace a := by
  induction l with
  | nil => rfl
  | cons a l ih =>
    by_cases h : isspace a <;> simp [trim_whitespace, h, ih, List.filter_cons]

/-- C1: refuted on the code — `add_batch_queue` performs a plain tail
append, not the ordered insertion the claim (and the C routine's own
comment) describe.  Enqueuing nodes with `range_low` values 10, 3, 7 in
that order yields the drain/traversal order 10, 3, 7, not 3, 7, 10. -/
theorem c1_tail_append_order :
    drainSelects (enqueueAll
        [⟨"c1", "10", "20", "h1"⟩, ⟨"c1", "3", "5", "h2"⟩, ⟨"c1", "7", "9", "h3"⟩])
      = [("10", "20", "h1"), ("3", "5", "h2"), ("7", "9", "h3")] ∧
    (drainSelects (enqueueAll
        [⟨"c1", "10", "20", "h1"⟩, ⟨"c1", "3", "5", "h2"⟩, ⟨"c1", "7", "9", "h3"⟩])).map
        (fun t => t.1) ≠ ["3", "7", "10"] := by
  exact ⟨rfl, by decide⟩

/-- C2: refuted on the code for negative counts — `parse_create_tbl`
stores `atoi`'s result in a `size_t` before the `< 1` comparison, so
`create(tbl,"T",D,-2)` compiles to a full `CREATE_TBL` operator with
column count `2^64 - 2` instead of an `Error`.  Non-numeric and zero
counts are rejected as the claim states. -/
theorem c2_negative_count_accepted :
    parse_command "create(tbl,\"T\",D,-2)".data
      = .op (.create_tbl "D" "D.T" (2 ^ 64 - 2)) ∧
    parse_command "create(tbl,\"T\",D,abc)".data
      = .op (.error_cmd "query unsupported, wrong column number") ∧
    parse_command "create(tbl,\"T\",D,0)".data
      = .op (.error_cmd "query unsupported, wrong column number") := by
  exact ⟨rfl, rfl, rfl⟩

/-- C3: for every queue state, `is_bq_empty` reports empty — returns 0,
the value its caller `show_batch_query` treats as "nothing to traverse" —
exactly when the head pointer equals the tail pointer, and returns 1
exactly otherwise. -/
theorem c3_is_bq_empty_iff (bq : batchQueue) :
    (is_bq_empty (some bq) = 0 ↔ bq.head = bq.tail) ∧
    (is_bq_empty (some bq) = 1 ↔ bq.head ≠ bq.tail) := by
  unfold is_bq_empty
  by_cases h : bq.head = bq.tail <;> simp [h]

/-- C4: round-trip — whatever select operators are enqueued (the claimed
one anywhere among them), draining/traversing the queue yields their
`range_low` (`pre_range`), `range_high` (`post_range`) and result handle
byte-for-byte; in particular the node at the claimed operator's position
carries exactly its three fields. -/
theorem c4_roundtrip (pre post : List SelectOperator) (s : SelectOperator) :
    drainSelects (enqueueAll (pre ++ s :: post))
      = (pre ++ s :: post).map (fun p => (p.pre_range, p.post_range, p.handle)) ∧
    (drainSelects (enqueueAll (pre ++ s :: post)))[pre.length]?
      = some (s.pre_range, s.post_range, s.handle) := by
  have h := drainSelects_enqueueAll (pre ++ s :: post)
  refine ⟨h, ?_⟩
  rw [h, List.map_append, List.getElem?_append_right (by simp)]
  simp

/-- C5: a command whose whitespace-trimmed, handle-stripped form matches
none of the six keyword prefixes compiles to an `ERROR_CMD` operator
carrying `"error command, please try again.\n"`, and dispatching that
operator produces exactly that message as the response. -/
theorem c5_unknown_command (ext : ExtEnv) (raw : List Char)
    (hc : startsWithL "--".data raw = false)
    (h1 : startsWithL "create(db,".data (trim_whitespace (afterEq raw)) = false)
    (h2 : startsWithL "create(tbl,".data (trim_whitespace (afterEq raw)) = false)
    (h3 : startsWithL "create(col,".data (trim_whitespace (afterEq raw)) = false)
    (h4 : startsWithL "load(".data (trim_whitespace (afterEq raw)) = false)
    (h5 : startsWithL "relational_insert".data (trim_whitespace (afterEq raw)) = false)
    (h6 : startsWithL "shutdown".data (trim_whitespace (afterEq raw)) = false) :
    parse_command raw = .op (.error_cmd err_command_msg) ∧
    (execute_DbOperator ext (.error_cmd err_command_msg)).1 = err_command_msg := by
  refine ⟨?_, rfl⟩
  simp [parse_command, keyword_dispatch, hc, h1, h2, h3, h4, h5, h6]

/-- Witness for C5 at the concrete input `badcommand(x,y)`. -/
theorem c5_unknown_command_witness :
    (startsWithL "--".data "badcommand(x,y)".data = false ∧
      startsWithL "create(db,".data (trim_whitespace (afterEq "badcommand(x,y)".data)) = false ∧
      startsWithL "create(tbl,".data (trim_whitespace (afterEq "badcommand(x,y)".data)) = false ∧
      startsWithL "create(col,".data (trim_whitespace (afterEq "badcommand(x,y)".data)) = false ∧
      startsWithL "load(".data (trim_whitespace (afterEq "badcommand(x,y)".data)) = false ∧
      startsWithL "relational_insert".data (trim_whitespace (afterEq "badcommand(x,y)".data)) = false ∧
      startsWithL "shutdown".data (trim_whitespace (afterEq "badcommand(x,y)".data)) = false) ∧
    (parse_command "badcommand(x,y)".data = .op (.error_cmd err_command_msg) ∧
      (execute_DbOperator ⟨true, true, true, true, true⟩
        (.error_cmd err_command_msg)).1 = err_command_msg) :=
  ⟨⟨by decide, by decide, by decide, by decide, by decide, by decide, by decide⟩,
    c5_unknown_command ⟨true, true, true, true, true⟩ "badcommand(x,y)".data
      (by decide) (by decide) (by decide) (by decide) (by decide) (by decide) (by decide)⟩

/-- C6: dispatching `SHUTDOWN` requests persistence first and catalog
teardown (the three store frees) last; a persistence failure is logged
(exactly one log event, none on success) but teardown still runs, and the
response is the success string regardless of the persistence outcome. -/
theorem c6_shutdown_order (ext : ExtEnv) :
    (execute_DbOperator ext .shutdown).1
      = "persist all the data and shutdown the server.\n" ∧
    ∃ mid, (execute_DbOperator ext .shutdown).2
        = .call_persist_csv :: mid
            ++ [.call_free_db_store, .call_free_tbl_store, .call_free_col_store] ∧
      mid.count (.log_error "persist all the data failed.\n")
        = (if ext.persist_ok then 0 else 1) := by
  refine ⟨rfl, ?_⟩
  cases h : ext.persist_ok
  · exact ⟨[.log_error "persist all the data failed.\n"],
      by simp [execute_DbOperator, h], by simp [h]⟩
  · exact ⟨[], by simp [execute_DbOperator, h], by simp [h]⟩

/-- C7: for every queue reachable by create-queue followed by any
sequence of enqueues, the `length` counter equals the number of real
nodes reachable from `head->next`, the sentinel (the cell `head` points
at) is never among the traversed real nodes, and it is still allocated. -/
theorem c7_length_invariant (ps : List SelectOperator) :
    (realNodeIds (enqueueAll ps)).length = (enqueueAll ps).length ∧
    (enqueueAll ps).head ∉ realNodeIds (enqueueAll ps) ∧
    ((enqueueAll ps).heap.get? (enqueueAll ps).head).isSome = true := by
  rw [enqueueAll_eq, realNodeIds_model]
  refine ⟨by simp [queueModel, List.length_range'], ?_, ?_⟩
  · simp [queueModel, List.mem_range']
    intro x _
    omega
  · simp [queueModel, heapModel]

/-- C8 counterexample: on the concrete command `loa d("x")` the
compiler's preprocessing is not the claimed leading/trailing strip — the
interior space is removed too, so the code compiles it to a `LOAD`
operator while dispatch on the leading/trailing-stripped string would
produce the unknown-command `Error`. -/
theorem c8_counterexample :
    trim_whitespace "loa d(\"x\")".data ≠ stripLeadTrailSpec "loa d(\"x\")".data ∧
    parse_command "loa d(\"x\")".data = .op (.load "x") ∧
    keyword_dispatch (stripLeadTrailSpec "loa d(\"x\")".data)
      = .op (.error_cmd err_command_msg) := by
  exact ⟨by decide, rfl, rfl⟩

/-- C8 (amended): before keyword matching the compiler removes every
whitespace character of the handle-stripped command — interior
whitespace included, not only leading and trailing — and keyword
dispatch runs on that fully stripped string; inserting a whitespace
character anywhere leaves the stripped string unchanged. -/
theorem c8_strips_all_whitespace (raw pre post : List Char) (c : Char)
    (hc : startsWithL "--".data raw = false) (hw : isspace c = true) :
    parse_command raw = keyword_dispatch ((afterEq raw).filter fun a => !isspace a) ∧
    trim_whitespace (pre ++ c :: post) = trim_whitespace (pre ++ post) := by
  constructor
  · simp [parse_command, hc, trim_whitespace_eq_filter]
  · rw [trim_whitespace_eq_filter, trim_whitespace_eq_filter,
      List.filter_append, List.filter_append, List.filter_cons]
    simp [hw]

/-- Witness for C8's amended theorem at the concrete command
`load( "x" )` and the concrete insertion of a space into `abcd`. -/
theorem c8_strips_all_whitespace_witness :
    (startsWithL "--".data "load( \"x\" )".data = false ∧ isspace ' ' = true) ∧
    (parse_command "load( \"x\" )".data
        = keyword_dispatch ((afterEq "load( \"x\" )".data).filter fun a => !isspace a) ∧
      trim_whitespace ("ab".data ++ ' ' :: "cd".data)
        = trim_whitespace ("ab".data ++ "cd".data)) :=
  ⟨⟨by decide, by decide⟩,
    c8_strips_all_whitespace "load( \"x\" )".data "ab".data "cd".data ' '
      (by decide) (by decide)⟩

/-- C9: refuted on the code — when the final `strsep` token is empty
(e.g. `create(tbl,"T",D,` or `create(col,"c",`), the closing-parenthesis
check computes `last_char = strlen(token) - 1 = -1` and reads
`token[-1]`: the embedding's indexing yields `none` on that branch, so
the parse ends in undefined behavior rather than a defined result. -/
theorem c9_oob_index :
    parse_command "create(tbl,\"T\",D,".data = .undef ∧
    parse_command "create(col,\"c\",".data = .undef ∧
    charAtInt [] ((0 : Int) - 1) = none := by
  exact ⟨rfl, rfl, rfl⟩

/-- C10: refuted on the code — a comment line compiles to the NULL
operator, and `execute_DbOperator` immediately reads `query->type` with
no NULL check, so the dispatch of a comment line has no defined
response: the `handle_client` pipeline yields `none`, not a defined
response. -/
theorem c10_null_deref (ext : ExtEnv) :
    parse_command "--comment".data = .null ∧
    execute_DbOperator_opt ext (operatorOfResult .null) = none ∧
    handle_client_step ext "--comment".data = none :=
  ⟨rfl, rfl, rfl⟩
